import Mathlib

/-!
Shallow embedding of `src/memory.rs` of the go-cosmwasm repository:
the `Buffer` struct (a flat pointer/length/capacity record crossing the
FFI boundary) and its operations `from_vec`, `read`, `consume`,
`with_capacity`, and the exported entry point `free_rust`.

Addresses are modelled as natural numbers (0 is the null pointer), the
heap as a total function from addresses to byte values, and the
allocator's bookkeeping as a list of live `(pointer, capacity)`
allocations together with a bump pointer for fresh addresses.
-/

/-- The modelled heap: a byte value at every address. -/
abbrev Mem := Nat → Nat

/-- Read `n` consecutive bytes starting at address `p`, as
`slice::from_raw_parts(p, n)` does. -/
def readBytes (m : Mem) (p n : Nat) : List Nat :=
  (List.range n).map (fun i => m (p + i))

/-- Model of Rust's `Vec<u8>` through its raw parts `(ptr, len, cap)`,
exactly the triple `Vec::from_raw_parts` consumes and
`as_mut_ptr`/`len`/`capacity` expose. The bytes it owns live in the
heap, at `ptr .. ptr + len`. -/
structure RVec where
  ptr : Nat
  len : Nat
  cap : Nat
deriving DecidableEq

/-- Rust's `Vec` invariant: its pointer is never null (it stores a
`NonNull<u8>`, a dangling well-aligned address when no allocation
exists), and the initialized length never exceeds the capacity. -/
def RVec.WellFormed (v : RVec) : Prop := v.ptr ≠ 0 ∧ v.len ≤ v.cap

instance (v : RVec) : Decidable v.WellFormed := by
  unfold RVec.WellFormed; infer_instance

/-- The global state: heap contents, the allocator's set of live
allocations as `(pointer, capacity)` pairs, and the next fresh address
handed out by the modelled bump allocator (kept positive, so fresh
pointers are never null). -/
structure State where
  mem : Mem
  live : List (Nat × Nat)
  nextPtr : Nat

/-- The bytes a vector owns: `len` bytes starting at its pointer. -/
def RVec.bytes (v : RVec) (m : Mem) : List Nat :=
  readBytes m v.ptr v.len

/-- Dropping a `Vec<u8>` returns its allocation of `cap` bytes at `ptr`
to the allocator; a zero-capacity vector owns no allocation and
deallocates nothing. -/
def RVec.drop (v : RVec) (s : State) : State :=
  if v.cap = 0 then s else { s with live := s.live.erase (v.ptr, v.cap) }

/-- Model of `Vec::<u8>::with_capacity(n)`: for `n = 0` no allocation is
made and the vector holds a dangling non-null pointer (address 1, the
aligned dangling address for `u8`); otherwise a fresh block of `n` bytes
is obtained from the allocator. Length is zero in both cases. -/
def RVec.with_capacity (n : Nat) (s : State) : RVec × State :=
  if n = 0 then (⟨1, 0, 0⟩, s)
  else (⟨s.nextPtr, 0, n⟩,
        { s with live := (s.nextPtr, n) :: s.live, nextPtr := s.nextPtr + n })

/-- The `Buffer` struct from `src/memory.rs`: a `#[repr(C)]`,
`#[derive(Copy, Clone)]` record of a raw byte pointer, a length and a
capacity. -/
structure Buffer where
  ptr : Nat
  len : Nat
  cap : Nat
deriving DecidableEq

/-- `Buffer::read`: if `self.len == 0` return `None`, else return
`Some(slice::from_raw_parts(self.ptr, self.len))`, a borrowed read-only
view of exactly `len` bytes starting at `ptr`. -/
def Buffer.read (b : Buffer) (m : Mem) : Option (List Nat) :=
  if b.len = 0 then none else some (readBytes m b.ptr b.len)

/-- `Buffer::consume`: `Vec::from_raw_parts(self.ptr, self.len,
self.cap)` — rebuild the owned vector from the three fields. -/
def Buffer.consume (b : Buffer) : RVec :=
  ⟨b.ptr, b.len, b.cap⟩

/-- `Buffer::from_vec` (pure part): wrap the vector in `ManuallyDrop`
and copy out `as_mut_ptr()`, `len()`, `capacity()` into the struct. -/
def Buffer.from_vec (v : RVec) : Buffer :=
  ⟨v.ptr, v.len, v.cap⟩

/-- `Buffer::from_vec` as a state operation: the `ManuallyDrop` wrapper
disarms the vector's destructor, so the heap, the live-allocation list
and the allocator are all left untouched — no byte is copied or freed. -/
def Buffer.from_vec_op (v : RVec) (s : State) : Buffer × State :=
  (Buffer.from_vec v, s)

/-- `Buffer::with_capacity`: `Buffer::from_vec(Vec::with_capacity(n))`. -/
def Buffer.with_capacity (n : Nat) (s : State) : Buffer × State :=
  match RVec.with_capacity n s with
  | (v, s1) => (Buffer.from_vec v, s1)

/-- `free_rust`: the `#[no_mangle] extern "C"` entry point; its body is
`let _ = buf.consume();` — the reconstructed vector is bound to `_` and
dropped at once, deallocating through the owning allocator. -/
def free_rust (buf : Buffer) (s : State) : State :=
  match Buffer.consume buf with
  | v => RVec.drop v s

/-- The spec's reading of the release entry point, for comparison with
`free_rust`: "consume and release" invoked and its result discarded,
i.e. `consume` followed by dropping the owned vector it returned. -/
def spec_consume_and_release (b : Buffer) (s : State) : State :=
  RVec.drop (Buffer.consume b) s

/-- `read` takes `&self`: as a state operation it borrows the struct and
the heap immutably, returning the view plus the untouched struct and
state. Its body performs no write and no ownership transfer. -/
def Buffer.read_op (b : Buffer) (s : State) : Option (List Nat) × Buffer × State :=
  (Buffer.read b s.mem, b, s)

/-- Calling `read` `n` times in sequence on the same buffer, threading
the struct value and the state through each call, collecting results. -/
def Buffer.read_times (n : Nat) (b : Buffer) (s : State) :
    List (Option (List Nat)) × Buffer × State :=
  match n with
  | 0 => ([], b, s)
  | Nat.succ k =>
    match Buffer.read_op b s with
    | (r, b1, s1) =>
      match Buffer.read_times k b1 s1 with
      | (rs, b2, s2) => (r :: rs, b2, s2)

/-- `#[derive(Copy, Clone)]`: duplicating a `Buffer` is a bitwise copy
of the three fields; no code runs, the heap and allocator are untouched.
Returns the original, the copy, and the unchanged state. -/
def Buffer.copy (b : Buffer) (s : State) : Buffer × Buffer × State :=
  (b, b, s)

/-- `Buffer` has no `Drop` impl: letting a `Buffer` value go out of
scope runs no destructor and frees nothing. -/
def Buffer.discard (_b : Buffer) (s : State) : State := s

/-- Claim C1: round-trip identity — for every owned byte vector `v`
(empty or with reserved capacity beyond its length), consuming the
buffer produced by `from_vec v` yields a vector with the same pointer,
length and capacity as `v`, and (since the operation touches no heap
byte) the same bytes; no copy of the underlying bytes occurs. -/
theorem consume_from_vec_round_trip (v : RVec) (s : State) :
    Buffer.consume (Buffer.from_vec v) = v ∧
    (Buffer.from_vec_op v s).2 = s ∧
    RVec.bytes (Buffer.consume (Buffer.from_vec v)) (Buffer.from_vec_op v s).2.mem
      = RVec.bytes v s.mem := by
  refine ⟨rfl, rfl, rfl⟩

/-- Claim C2: the struct returned by `from_vec v` has its three fields
exactly equal to `v`'s raw pointer, length and capacity, and the
construction copies no byte and frees nothing: heap, live-allocation
list and bump pointer are all unchanged. -/
theorem from_vec_fields_exact (v : RVec) (s : State) :
    (Buffer.from_vec v).ptr = v.ptr ∧
    (Buffer.from_vec v).len = v.len ∧
    (Buffer.from_vec v).cap = v.cap ∧
    (Buffer.from_vec_op v s).2.mem = s.mem ∧
    (Buffer.from_vec_op v s).2.live = s.live ∧
    (Buffer.from_vec_op v s).2.nextPtr = s.nextPtr := by
  exact ⟨rfl, rfl, rfl, rfl, rfl, rfl⟩

/-- Claim C3: `read b` returns `none` exactly when `b.len = 0`; when
`b.len > 0` it returns the view of exactly `b.len` bytes starting at
`b.ptr`; and it never returns a zero-length readable view. -/
theorem read_none_iff_len_zero (b : Buffer) (m : Mem) :
    (Buffer.read b m = none ↔ b.len = 0) ∧
    (0 < b.len →
      Buffer.read b m = some (readBytes m b.ptr b.len) ∧
      (readBytes m b.ptr b.len).length = b.len) ∧
    (∀ l, Buffer.read b m = some l → l ≠ []) := by
  unfold Buffer.read
  refine ⟨?_, ?_, ?_⟩
  · by_cases h : b.len = 0 <;> simp [h]
  · intro hpos
    have h : ¬ b.len = 0 := Nat.pos_iff_ne_zero.mp hpos
    simp [h, readBytes]
  · intro l hl
    by_cases h : b.len = 0
    · simp [h] at hl
    · simp [h] at hl
      intro hnil
      have : l.length = b.len := by
        rw [← hl]; simp [readBytes]
      rw [hnil] at this
      exact h this.symm

/-- Claim C3 witness: the theorem applied to the concrete 2-byte buffer
at address 10 over the identity heap. -/
theorem read_none_iff_len_zero_witness :
    (Buffer.read ⟨10, 2, 5⟩ (fun i => i) = none ↔ (2 : Nat) = 0) ∧
    Buffer.read ⟨10, 2, 5⟩ (fun i => i) = some [10, 11] := by
  have h := read_none_iff_len_zero ⟨10, 2, 5⟩ (fun i => i)
  refine ⟨h.1, ?_⟩
  have h2 := (h.2.1 (by decide)).1
  simpa [readBytes] using h2

/-- Claim C4: `with_capacity n` delegates to `from_vec` on a freshly
allocated zero-length vector and returns a buffer with length 0 and
capacity `n`; consuming that buffer restores an owned vector of length 0
and capacity `n`. -/
theorem with_capacity_spec (n : Nat) (s : State) :
    (Buffer.with_capacity n s).1 = Buffer.from_vec (RVec.with_capacity n s).1 ∧
    (RVec.with_capacity n s).1.len = 0 ∧
    (Buffer.with_capacity n s).1.len = 0 ∧
    (Buffer.with_capacity n s).1.cap = n ∧
    (Buffer.consume (Buffer.with_capacity n s).1).len = 0 ∧
    (Buffer.consume (Buffer.with_capacity n s).1).cap = n := by
  unfold Buffer.with_capacity RVec.with_capacity Buffer.from_vec Buffer.consume
  by_cases h : n = 0 <;> simp [h]

/-- Claim C5: on a length-0 buffer, `read` returns `none` through an
ordinary branch without ever dereferencing the pointer — the result is
the same for every pointer value (null included), every capacity and
every heap, and `read` is a total function with no panic or error path. -/
theorem read_len_zero_no_deref (b : Buffer) (m : Mem) (h : b.len = 0) :
    Buffer.read b m = none ∧
    (∀ p c : Nat, ∀ m2 : Mem, Buffer.read ⟨p, 0, c⟩ m2 = none) := by
  constructor
  · simp [Buffer.read, h]
  · intro p c m2
    simp [Buffer.read]

/-- Claim C5 witness: the theorem applied to a buffer with a null
pointer, length 0 and capacity 7, over the identity heap. -/
theorem read_len_zero_no_deref_witness :
    Buffer.read ⟨0, 0, 7⟩ (fun i => i) = none :=
  (read_len_zero_no_deref ⟨0, 0, 7⟩ (fun i => i) rfl).1

/-- Claim C6: `free_rust b` is behaviorally identical to invoking
`consume b` and discarding (hence dropping) the reconstructed owned
vector; the entry point keeps the stable external name `free_rust`. -/
theorem free_rust_is_consume_and_release (b : Buffer) (s : State) :
    free_rust b s = spec_consume_and_release b s := rfl

/-- Claim C7: for every empty owned vector with reserved capacity
`N > 0` (its pointer non-null, as Rust's `Vec` guarantees), `from_vec`
produces a buffer with length 0, capacity `N` and a non-null pointer,
and `read` on that buffer returns `none` despite the capacity being
positive. -/
theorem from_vec_zero_len_nonzero_cap (v : RVec) (m : Mem)
    (h0 : v.len = 0) (h1 : 0 < v.cap) (hw : v.WellFormed) :
    (Buffer.from_vec v).len = 0 ∧
    (Buffer.from_vec v).cap = v.cap ∧
    0 < (Buffer.from_vec v).cap ∧
    (Buffer.from_vec v).ptr ≠ 0 ∧
    Buffer.read (Buffer.from_vec v) m = none := by
  refine ⟨h0, rfl, h1, hw.1, ?_⟩
  simp [Buffer.read, Buffer.from_vec, h0]

/-- Claim C7 witness: the theorem applied to the empty vector at
address 4 with reserved capacity 2, over the identity heap. -/
theorem from_vec_zero_len_nonzero_cap_witness :
    (Buffer.from_vec ⟨4, 0, 2⟩).len = 0 ∧
    (Buffer.from_vec ⟨4, 0, 2⟩).cap = 2 ∧
    Buffer.read (Buffer.from_vec ⟨4, 0, 2⟩) (fun i => i) = none := by
  have h := from_vec_zero_len_nonzero_cap ⟨4, 0, 2⟩ (fun i => i) rfl
    (by decide) (by decide)
  exact ⟨h.1, h.2.1, h.2.2.2.2⟩

/-- Claim C8: `read` performs no ownership change and leaves the
buffer's three fields and the whole state unchanged, so calling it any
number of times in sequence returns the same result every time. -/
theorem read_times_frame (n : Nat) (b : Buffer) (s : State) :
    Buffer.read_times n b s = (List.replicate n (Buffer.read b s.mem), b, s) := by
  induction n with
  | zero => simp [Buffer.read_times, List.replicate]
  | succ k ih =>
    simp [Buffer.read_times, Buffer.read_op, ih, List.replicate]

/-- Claim C9: copying a buffer value (as happens when it crosses the
boundary by value) and later discarding the copy never changes the
live-allocation list — the struct has no destructor — while an explicit
`free_rust` on a live allocation does deallocate it. -/
theorem copy_never_deallocates (b : Buffer) (s : State)
    (hlive : s.live = [(b.ptr, b.cap)]) (hc : 0 < b.cap) :
    (Buffer.copy b s).2.2.live = s.live ∧
    (Buffer.discard (Buffer.copy b s).2.1 (Buffer.copy b s).2.2).live = s.live ∧
    (free_rust b s).live = [] := by
  refine ⟨rfl, rfl, ?_⟩
  have hne : ¬ b.cap = 0 := Nat.pos_iff_ne_zero.mp hc
  simp [free_rust, RVec.drop, Buffer.consume, hne, hlive]

/-- Claim C9 witness: the theorem applied to the buffer `(1, 0, 3)` in a
state whose only live allocation is `(1, 3)`. -/
theorem copy_never_deallocates_witness :
    (Buffer.copy ⟨1, 0, 3⟩ ⟨fun _ => 0, [(1, 3)], 4⟩).2.2.live = [(1, 3)] ∧
    (free_rust ⟨1, 0, 3⟩ ⟨fun _ => 0, [(1, 3)], 4⟩).live = [] := by
  have h := copy_never_deallocates ⟨1, 0, 3⟩ ⟨fun _ => 0, [(1, 3)], 4⟩ rfl (by decide)
  exact ⟨h.1, h.2.2⟩

/-- Claim C10: the result of `read` depends only on the pointer and
length fields, never on the capacity — two buffers agreeing on pointer
and length but differing in capacity read identically. -/
theorem read_ignores_capacity (p l c1 c2 : Nat) (m : Mem) :
    Buffer.read ⟨p, l, c1⟩ m = Buffer.read ⟨p, l, c2⟩ m := rfl
